import Mathlib

/-
  Verification of the order pricing and dual-ledger engine of the
  TazeinDecor backend (FastAPI + SQLAlchemy + WooCommerce mirror).

  Shallow embedding conventions:
  * Python floats are modelled as exact rationals (ℚ).  All the equations
    settled here are structural, not about floating-point rounding.
  * The database session is modelled as an explicit `LocalDB` value; the
    session-per-request pattern of `get_db` (no commit => rollback on close)
    means only `db.commit()` points persist anything, so every handler is a
    function `... -> outcome × LocalDB × ExtState`.
  * The WooCommerce gateway is an oracle inside `Env`:
    `catalog` models `get_product` / `get_product_variations`,
    `wooCreateResult` the id assigned by a successful `create_order` call
    (`none` = transport failure), `extOrder` models `get_order`, and
    `colleagueApi` the supplementary colleague-price endpoint.
  * `commitOk` / `retryOk` / `verifyCommitOk` model whether the respective
    `db.commit()` statements raise.
-/

namespace TazeinDecor

abbrev Q := ℚ

/-! ## Enumerations (app/models.py) -/

inductive UserRole where
  | admin
  | operator
  | store_manager
  | seller
deriving DecidableEq, BEq, Repr

inductive PaymentMethod where
  | online
  | credit
  | invoice
deriving DecidableEq, BEq, Repr

/-- Python string value of a payment method (`PaymentMethod.value`). -/
def PaymentMethod.value : PaymentMethod → String
  | .online => "online"
  | .credit => "credit"
  | .invoice => "invoice"

/-- `order_data.payment_method.value if order_data.payment_method else "bacs"`. -/
def paymentMethodValue : Option PaymentMethod → String
  | some p => p.value
  | none => "bacs"

/-- ASCII `str.lower()` / `str.upper()` (every string the source
case-folds here is ASCII). -/
def strLower (s : String) : String := String.mk (s.data.map Char.toLower)

def strUpper (s : String) : String := String.mk (s.data.map Char.toUpper)

/-- Errors surfaced as `HTTPException` by the routers (orders.py, returns.py). -/
inductive ApiError where
  | forbidden
  | productNotFound (pid : Nat)
  | missingCooperationPrice (pid : Nat)
  | wooCreateFailed
  | insufficientCredit
  | notOnlineEndpoint
  | wooOrderNotFound (oid : Nat)
  | paymentNotCompleted
  | customerNotFound (cid : Nat)
  | registrationFailed
  | responseValidationFailed
  | orderNotFound
  | accessDenied
  | noReturnItems
  | returnItemNotInOrder (oid : Nat)
  | returnQuantityExceeds (oid : Nat)
deriving DecidableEq, BEq, Repr

/-! ## Data rows (app/models.py) and request schemas (app/schemas.py) -/

structure UserRow where
  id : Nat
  role : UserRole
  credit : Option Q
  is_active : Bool
  referral_code : Option String
  created_by : Option Nat
deriving DecidableEq, Repr

structure CustomerRow where
  id : Nat
  name : String
  mobile : String
  address : Option String
deriving DecidableEq, Repr

structure Discount where
  user_id : Nat
  category_id : Option Nat
  discount_percentage : Q
  is_active : Bool
deriving DecidableEq, Repr

structure OrderRow where
  id : Nat
  order_number : String
  seller_id : Nat
  customer_id : Nat
  payment_method : Option PaymentMethod
  status : String
  is_new : Bool
  total_amount : Q
  wholesale_amount : Q
  cooperation_total_amount : Q
  tax_amount : Q
  discount_amount : Q
  referrer_id : Option Nat
  installation_date : Option String
deriving DecidableEq, Repr

structure OrderItemRow where
  id : Nat
  order_id : Nat
  product_id : Nat
  quantity : Q
  unit : String
  price : Q
  total : Q
  variation_id : Option Int
  variation_pattern : Option String
deriving DecidableEq, Repr

structure InstallationRow where
  order_id : Nat
  installation_date : String
deriving DecidableEq, Repr

/-- One entry of the JSON `items` list of a return request.  The source
checks `'order_item_id' in item`; a missing key is `none` here, and
`quantity` models `item.get('quantity', 0)`. -/
structure ReturnItemEntry where
  order_item_id : Option Nat
  quantity : Q
deriving DecidableEq, Repr

structure ReturnRow where
  id : Nat
  order_id : Nat
  reason : Option String
  items : List ReturnItemEntry
  status : String
  is_new : Bool
deriving DecidableEq, Repr

/-- `OrderItemCreate` of `app/schemas.py`: `price` is a required float
(a request without it is rejected by schema validation before the
handler runs), `variation_id` an optional int. -/
structure ItemData where
  product_id : Nat
  quantity : Q
  unit : String
  price : Q
  variation_id : Option Int
  variation_pattern : Option String
deriving DecidableEq, Repr

/-- `OrderCreate` of `app/schemas.py`.  It has no `tax_amount` or
`discount_amount` field, so the `hasattr` guards in `create_order`
always yield `0.0`. -/
structure OrderCreateData where
  customer_name : String
  customer_mobile : String
  customer_address : Option String
  items : List ItemData
  payment_method : Option PaymentMethod
  installation_date : Option String
  installation_notes : Option String
  notes : Option String
  referral_code : Option String
deriving DecidableEq, Repr

structure LocalDB where
  users : List UserRow
  customers : List CustomerRow
  orders : List OrderRow
  order_items : List OrderItemRow
  discounts : List Discount
  installations : List InstallationRow
  returns : List ReturnRow
deriving DecidableEq, Repr

/-! ## External gateway model -/

structure WooProduct where
  price : Q
  categories : List Nat
deriving DecidableEq, Repr

structure Variation where
  id : Int
  price : Option Q
deriving DecidableEq, Repr

structure Catalog where
  products : Nat → Option WooProduct
  variations : Nat → List Variation

structure WooLineItem where
  product_id : Nat
  quantity : Int
  subtotal : Q
  total : Q
  variation_id : Option Int
  meta_pattern : Option String
deriving DecidableEq, Repr

structure WooOrderReq where
  status : String
  payment_method : String
  billing_phone : String
  billing_email : String
  line_items : List WooLineItem
  customer_note : String
deriving DecidableEq, Repr

/-- `get_order` result: status, payment_status and total of the mirrored order. -/
structure WooOrderInfo where
  status : String
  payment_status : String
  total : Q
deriving DecidableEq, Repr

/-- External-side state: orders created in WooCommerce and status updates
pushed to it. -/
structure ExtState where
  created : List (Nat × WooOrderReq)
  updates : List (Nat × String)
deriving DecidableEq, Repr

structure Env where
  catalog : Catalog
  today : String
  wooCreateResult : Option Nat
  commitOk : Bool
  retryOk : Bool
  verifyCommitOk : Bool
  colleagueApi : Nat → Option Q
  extOrder : Nat → Option WooOrderInfo

/-! ## Discount resolution (orders.py, `_get_user_discount_for_category`) -/

/-- `db.query(Discount).filter(user_id, category_id, is_active).first()`. -/
def findActiveDiscount (ds : List Discount) (uid : Nat) (cat : Option Nat) : Option Discount :=
  ds.find? (fun d => d.user_id == uid && d.category_id == cat && d.is_active)

/-- `_get_user_discount_for_category`: a category-specific active discount
if one exists, otherwise the general (`category_id = None`) active
discount.  `if category_id:` is a Python truthiness test, so a zero
category id also falls through to the general lookup. -/
def get_user_discount_for_category (ds : List Discount) (uid : Nat) (cat : Option Nat) :
    Option Discount :=
  match cat with
  | some c =>
    if c ≠ 0 then
      match findActiveDiscount ds uid (some c) with
      | some d => some d
      | none => findActiveDiscount ds uid none
    else findActiveDiscount ds uid none
  | none => findActiveDiscount ds uid none

/-- The caller-side loop of `create_order` (and of the pending/verify
flows): try `_get_user_discount_for_category` on each category id in
catalog order, stopping at the first hit; if the loop found nothing,
call it once more with `None`. -/
def find_applicable_discount (ds : List Discount) (uid : Nat) (catIds : List Nat) :
    Option Discount :=
  match catIds.findSome? (fun cid => get_user_discount_for_category ds uid (some cid)) with
  | some d => some d
  | none => get_user_discount_for_category ds uid none

/-- Lines 185-188: reduce the cooperation price by `price * pct / 100`
when an applicable discount with positive percentage was found. -/
def applyDiscount (ds : List Discount) (uid : Nat) (catIds : List Nat) (w : Q) : Q :=
  match find_applicable_discount ds uid catIds with
  | some d => if 0 < d.discount_percentage then w - w * (d.discount_percentage / 100) else w
  | none => w

/-! ## Pricing (orders.py, `create_order` lines 137-240) -/

/-- Python `round` (round half to even) on an exact rational. -/
def pyRound (q : Q) : Int :=
  let f := ⌊q⌋
  let frac := q - (f : Q)
  if frac < 1/2 then f
  else if 1/2 < frac then f + 1
  else if f % 2 = 0 then f else f + 1

/-- Python `max` on two ints. -/
def pyMax (a b : Int) : Int := if a ≤ b then b else a

/-- Rounding up to the nearest whole unit (the spec's wording); used only
to state claims, never by the embedded code. -/
def ceilQ (q : Q) : Int := -(⌊-q⌋)

/-- Variation handling (lines 191-206): a truthy variation id whose
variation is found with a truthy price overrides the retail price only. -/
def resolveRetail (c : Catalog) (it : ItemData) (base : Q) : Q :=
  match it.variation_id with
  | none => base
  | some vid =>
    if vid = 0 then base
    else
      match (c.variations it.product_id).find? (fun v => v.id == vid) with
      | some v =>
        match v.price with
        | some vp => if vp ≠ 0 then vp else base
        | none => base
      | none => base

structure PricedItem where
  product_id : Nat
  quantity : Q
  unit : String
  retailPrice : Q
  wholesalePrice : Q
  retailTotal : Q
  wholesaleTotal : Q
  wooQuantity : Int
  variation_id : Option Int
  variation_pattern : Option String
deriving DecidableEq, Repr

/-- One iteration of the pricing loop of `create_order`: fetch the catalog
product, validate the caller-supplied cooperation price
(`not item_data.price or item_data.price <= 0`), apply the user discount
to the cooperation price, resolve the (retail-only) variation override,
and compute the line totals.  The retail line total uses the exact
quantity; only `woo_line_item["quantity"]` is `max(1, int(round(qty)))`. -/
def priceItem (c : Catalog) (ds : List Discount) (uid : Nat) (it : ItemData) :
    Except ApiError PricedItem :=
  match c.products it.product_id with
  | none => .error (.productNotFound it.product_id)
  | some p =>
    if it.price ≤ 0 then .error (.missingCooperationPrice it.product_id)
    else
      let w := applyDiscount ds uid p.categories it.price
      let retail := resolveRetail c it p.price
      .ok { product_id := it.product_id, quantity := it.quantity, unit := it.unit,
            retailPrice := retail, wholesalePrice := w,
            retailTotal := it.quantity * retail, wholesaleTotal := it.quantity * w,
            wooQuantity := pyMax 1 (pyRound it.quantity),
            variation_id := it.variation_id, variation_pattern := it.variation_pattern }

/-- The pricing loop over the whole cart, aborting at the first failure. -/
def priceItems (c : Catalog) (ds : List Discount) (uid : Nat) :
    List ItemData → Except ApiError (List PricedItem)
  | [] => .ok []
  | it :: rest =>
    match priceItem c ds uid it with
    | .error e => .error e
    | .ok p =>
      match priceItems c ds uid rest with
      | .error e => .error e
      | .ok ps => .ok (p :: ps)

/-! ## create_order (orders.py lines 100-443) -/

/-- Only sellers and store managers may create orders/returns. -/
def roleAllowed : UserRole → Bool
  | .seller => true
  | .store_manager => true
  | _ => false

/-- Find-or-create of the customer by mobile (lines 117-125).  The new
customer is only flushed, not committed; the `Bool` records whether the
row is new so the commit step can persist it. -/
def resolveCustomer (db : LocalDB) (od : OrderCreateData) : CustomerRow × Bool :=
  match db.customers.find? (fun c => c.mobile == od.customer_mobile) with
  | some c => (c, false)
  | none =>
    ({ id := db.customers.length + 1, name := od.customer_name,
       mobile := od.customer_mobile, address := od.customer_address }, true)

/-- A WooCommerce line item built from a priced item (lines 228-240):
retail subtotal/total, `max(1, int(round(quantity)))`, variation id only
when truthy. -/
def wooLineOfPriced (p : PricedItem) : WooLineItem :=
  { product_id := p.product_id, quantity := p.wooQuantity,
    subtotal := p.retailTotal, total := p.retailTotal,
    variation_id :=
      match p.variation_id with
      | some v => if v ≠ 0 then some v else none
      | none => none,
    meta_pattern := p.variation_pattern }

/-- Referral-code resolution (lines 300-312): an empty or missing code is
falsy; otherwise look up an active seller/store-manager whose
referral_code equals the uppercased code, silently ignoring misses. -/
def lookupReferrer (db : LocalDB) (code? : Option String) : Option Nat :=
  match code? with
  | none => none
  | some code =>
    if code.isEmpty then none
    else
      match db.users.find? (fun u =>
          u.referral_code == some (strUpper code) && u.is_active && roleAllowed u.role) with
      | some u => some u.id
      | none => none

/-- `db.refresh(current_user)` followed by reading `.credit`: the credit
balance as currently stored. -/
def freshCredit (db : LocalDB) (uid : Nat) : Option Q :=
  (db.users.find? (fun u => u.id == uid)).bind UserRow.credit

/-- `current_user.credit -= wholesale_total` as committed. -/
def deductCredit (users : List UserRow) (uid : Nat) (amt : Q) : List UserRow :=
  users.map (fun u => if u.id = uid then { u with credit := u.credit.map (· - amt) } else u)

/-- First local item-row loop (lines 349-371): the row's `total` is
`quantity * float(item_data.price)` — the raw caller price, and its
`price` is the raw caller price when truthy, else derived from the
retail line total. -/
def mkOrderItem (orderId idv : Nat) (it : ItemData) (wi : WooLineItem) : OrderItemRow :=
  let retail_item_total := wi.total
  let unit_price :=
    if it.price ≠ 0 then it.price
    else if 0 < wi.quantity then retail_item_total / (wi.quantity : Q)
    else retail_item_total
  { id := idv, order_id := orderId, product_id := wi.product_id, quantity := it.quantity,
    unit := it.unit, price := unit_price, total := it.quantity * it.price,
    variation_id := it.variation_id, variation_pattern := it.variation_pattern }

/-- Degraded-retry item-row loop (lines 393-431); the only difference is
the explicit truthiness fallback on `wholesale_item_total`.  (The inner
drop-the-variation-columns recovery is a database-schema condition
outside this model.) -/
def mkOrderItemRetry (orderId idv : Nat) (it : ItemData) (wi : WooLineItem) : OrderItemRow :=
  let retail_item_total := wi.total
  let wholesale_item_total := if it.price ≠ 0 then it.quantity * it.price else retail_item_total
  let unit_price :=
    if it.price ≠ 0 then it.price
    else if 0 < wi.quantity then retail_item_total / (wi.quantity : Q)
    else retail_item_total
  { id := idv, order_id := orderId, product_id := wi.product_id, quantity := it.quantity,
    unit := it.unit, price := unit_price, total := wholesale_item_total,
    variation_id := it.variation_id, variation_pattern := it.variation_pattern }

/-- Build item rows with consecutive fresh ids. -/
def buildItemRows (mk : Nat → Nat → ItemData → WooLineItem → OrderItemRow)
    (orderId : Nat) : Nat → List (ItemData × WooLineItem) → List OrderItemRow
  | _, [] => []
  | n, p :: rest => mk orderId n p.1 p.2 :: buildItemRows mk orderId (n + 1) rest

deriving instance DecidableEq for Except

/-- Outcome of an order-handling request: the response (or error) plus the
committed local and external state. -/
structure OrderOutcome where
  result : Except ApiError OrderRow
  db : LocalDB
  ext : ExtState
deriving DecidableEq, Repr

/-- Lines 314-443: build the order row, item rows and
`cooperation_total_amount`, then commit; on a commit failure roll back
and retry with a fresh item-row loop.  The recovery path means to return
the in-memory order as success ("return success anyway"), but it cannot:
`db.rollback()` expunges the flushed Order, so `db.refresh(order)` in the
retry block raises (caught there), and `OrderResponse.model_validate` on
`order.__dict__` at line 443 raises ValidationError — `company_id` is
never set during creation and `created_at` (a server default) is only
loaded by a successful refresh, and both are required fields without
defaults in the pydantic-v2 `OrderResponse` — so the caller receives an
error response in both recovery branches.  When the retry commit itself
succeeded, the degraded item rows (with no Order row) stay committed. -/
def commitOrder (env : Env) (caller : UserRow) (od : OrderCreateData) (db : LocalDB)
    (ext : ExtState) (customer : CustomerRow) (customerIsNew : Bool)
    (pairs : List (ItemData × WooLineItem)) (total wholesale_total : Q)
    (order_number : String) (deduct : Bool) : OrderOutcome :=
  let referrer_id := lookupReferrer db od.referral_code
  let orderId := db.orders.length + 1
  let itemRows := buildItemRows mkOrderItem orderId (db.order_items.length + 1) pairs
  let item_totals_sum := (itemRows.map OrderItemRow.total).sum
  -- OrderCreate has no tax_amount / discount_amount attribute, so the
  -- hasattr guards always produce 0.0 at creation time.
  let cooperation_total_amount := item_totals_sum + 0 - 0
  let orderRow : OrderRow :=
    { id := orderId, order_number := order_number, seller_id := caller.id,
      customer_id := customer.id, payment_method := od.payment_method,
      status := "pending", is_new := true, total_amount := total,
      wholesale_amount := wholesale_total,
      cooperation_total_amount := cooperation_total_amount,
      tax_amount := 0, discount_amount := 0, referrer_id := referrer_id,
      installation_date := od.installation_date }
  if env.commitOk then
    ⟨.ok orderRow,
     { db with
       customers := db.customers ++ (if customerIsNew then [customer] else []),
       users := if deduct then deductCredit db.users caller.id wholesale_total else db.users,
       orders := db.orders ++ [orderRow],
       order_items := db.order_items ++ itemRows,
       installations := db.installations ++
         (match od.installation_date with
          | some d => [{ order_id := orderId, installation_date := d }]
          | none => []) },
     ext⟩
  else
    -- rollback discards the pending customer, credit deduction, order and
    -- installation; the retry loop re-adds only item rows and commits them.
    let retryRows := buildItemRows mkOrderItemRetry orderId (db.order_items.length + 1) pairs
    if env.retryOk then
      ⟨.error .responseValidationFailed,
       { db with order_items := db.order_items ++ retryRows }, ext⟩
    else
      ⟨.error .responseValidationFailed, db, ext⟩

/-- Credit-payment gate (lines 283-298), entered only after the
WooCommerce order has already been created. -/
def createOrderAfterWoo (env : Env) (caller : UserRow) (od : OrderCreateData)
    (db : LocalDB) (ext : ExtState) (customer : CustomerRow) (customerIsNew : Bool)
    (pairs : List (ItemData × WooLineItem)) (total wholesale_total : Q)
    (wooId : Nat) : OrderOutcome :=
  let order_number := "ORD-" ++ env.today ++ "-" ++ toString wooId
  if od.payment_method = some PaymentMethod.credit then
    match freshCredit db caller.id with
    | none => ⟨.error .insufficientCredit, db, ext⟩
    | some c =>
      if c < wholesale_total then ⟨.error .insufficientCredit, db, ext⟩
      else
        commitOrder env caller od db ext customer customerIsNew pairs total
          wholesale_total order_number true
  else
    commitOrder env caller od db ext customer customerIsNew pairs total
      wholesale_total order_number false

/-- Totals aggregation, payload construction and the external create call
(lines 208-281). -/
def createOrderAfterPricing (env : Env) (caller : UserRow) (od : OrderCreateData)
    (db : LocalDB) (ext : ExtState) (customer : CustomerRow) (customerIsNew : Bool)
    (priced : List PricedItem) : OrderOutcome :=
  let total := (priced.map PricedItem.retailTotal).sum
  let wholesale_total := (priced.map PricedItem.wholesaleTotal).sum
  let woo_line_items := priced.map wooLineOfPriced
  let woo_status := if od.payment_method = some PaymentMethod.online then "processing" else "pending"
  let payload : WooOrderReq :=
    { status := woo_status, payment_method := paymentMethodValue od.payment_method,
      billing_phone := od.customer_mobile,
      billing_email := od.customer_mobile ++ "@example.local",
      line_items := woo_line_items, customer_note := od.notes.getD "" }
  match env.wooCreateResult with
  | none => ⟨.error .wooCreateFailed, db, ext⟩
  | some wooId =>
    createOrderAfterWoo env caller od db
      { ext with created := ext.created ++ [(wooId, payload)] }
      customer customerIsNew (od.items.zip woo_line_items) total wholesale_total wooId

/-- `POST /api/orders` (`create_order`): role gate, customer resolution,
pricing, external mirror creation, credit gate, local commit with
degraded retry. -/
def create_order (env : Env) (caller : UserRow) (od : OrderCreateData)
    (db : LocalDB) (ext : ExtState) : OrderOutcome :=
  if roleAllowed caller.role then
    let cust := resolveCustomer db od
    match priceItems env.catalog db.discounts caller.id od.items with
    | .error e => ⟨.error e, db, ext⟩
    | .ok priced => createOrderAfterPricing env caller od db ext cust.1 cust.2 priced
  else ⟨.error .forbidden, db, ext⟩

/-! ## create_pending_order_for_payment (orders.py lines 446-618) -/

/-- One iteration of the pending-flow pricing loop (lines 481-572).  It
differs from `priceItem` in one place: a falsy or non-positive caller
price triggers a colleague-price API lookup, and only if that yields no
positive price does the request fail. -/
def pricePendingItem (c : Catalog) (api : Nat → Option Q) (ds : List Discount)
    (uid : Nat) (it : ItemData) : Except ApiError PricedItem :=
  match c.products it.product_id with
  | none => .error (.productNotFound it.product_id)
  | some p =>
    let priceStep : Except ApiError Q :=
      if it.price ≤ 0 then
        match api it.product_id with
        | some cp => if 0 < cp then .ok cp else .error (.missingCooperationPrice it.product_id)
        | none => .error (.missingCooperationPrice it.product_id)
      else .ok it.price
    match priceStep with
    | .error e => .error e
    | .ok w0 =>
      let w := applyDiscount ds uid p.categories w0
      let retail := resolveRetail c it p.price
      .ok { product_id := it.product_id, quantity := it.quantity, unit := it.unit,
            retailPrice := retail, wholesalePrice := w,
            retailTotal := it.quantity * retail, wholesaleTotal := it.quantity * w,
            wooQuantity := pyMax 1 (pyRound it.quantity),
            variation_id := it.variation_id, variation_pattern := it.variation_pattern }

def pricePendingItems (c : Catalog) (api : Nat → Option Q) (ds : List Discount)
    (uid : Nat) : List ItemData → Except ApiError (List PricedItem)
  | [] => .ok []
  | it :: rest =>
    match pricePendingItem c api ds uid it with
    | .error e => .error e
    | .ok p =>
      match pricePendingItems c api ds uid rest with
      | .error e => .error e
      | .ok ps => .ok (p :: ps)

/-- Pending-flow WooCommerce line item (lines 561-567): subtotal and
total carry the cooperation (wholesale) line total, not the retail one. -/
def wooLineOfPricedWholesale (p : PricedItem) : WooLineItem :=
  { product_id := p.product_id, quantity := p.wooQuantity,
    subtotal := p.wholesaleTotal, total := p.wholesaleTotal,
    variation_id :=
      match p.variation_id with
      | some v => if v ≠ 0 then some v else none
      | none => none,
    meta_pattern := p.variation_pattern }

/-- Response of the pending endpoint. -/
structure PendingResult where
  woo_order_id : Nat
  order_number : String
  total_amount : Q
  wholesale_amount : Q
  customer_id : Nat
deriving DecidableEq, Repr

structure PendingOutcome where
  result : Except ApiError PendingResult
  db : LocalDB
  ext : ExtState
deriving DecidableEq, Repr

/-- `POST /api/orders/pending-payment`: create the mirrored WooCommerce
order (with wholesale line totals) but commit nothing locally — the
handler never calls `db.commit()`, so the flushed customer row is rolled
back when the session closes. -/
def create_pending_order_for_payment (env : Env) (caller : UserRow)
    (od : OrderCreateData) (db : LocalDB) (ext : ExtState) : PendingOutcome :=
  if roleAllowed caller.role then
    if od.payment_method = some PaymentMethod.online then
      let cust := resolveCustomer db od
      match pricePendingItems env.catalog env.colleagueApi db.discounts caller.id od.items with
      | .error e => ⟨.error e, db, ext⟩
      | .ok priced =>
        let total := (priced.map PricedItem.retailTotal).sum
        let wholesale_total := (priced.map PricedItem.wholesaleTotal).sum
        let payload : WooOrderReq :=
          { status := "pending", payment_method := "online",
            billing_phone := od.customer_mobile,
            billing_email := od.customer_mobile ++ "@example.local",
            line_items := priced.map wooLineOfPricedWholesale,
            customer_note := od.notes.getD "" }
        match env.wooCreateResult with
        | none => ⟨.error .wooCreateFailed, db, ext⟩
        | some wooId =>
          ⟨.ok { woo_order_id := wooId,
                 order_number := "ORD-" ++ env.today ++ "-" ++ toString wooId,
                 total_amount := total, wholesale_amount := wholesale_total,
                 customer_id := cust.1.id },
           db,
           { ext with created := ext.created ++ [(wooId, payload)] }⟩
    else ⟨.error .notOnlineEndpoint, db, ext⟩
  else ⟨.error .forbidden, db, ext⟩

/-! ## verify_payment_and_register_order (orders.py lines 621-835) -/

structure VerifyReq where
  woo_order_id : Nat
  order_data : OrderCreateData
  customer_id : Option Nat
  total_amount : Q
  wholesale_amount : Q
deriving DecidableEq, Repr

/-- Payment-success predicate (lines 666-677), on lowercased statuses. -/
def isPaid (w : WooOrderInfo) : Bool :=
  let ws := strLower w.status
  let ps := strLower w.payment_status
  ps == "paid" || ws == "processing" || ws == "completed" ||
    (ws == "pending" && ps == "paid")

/-- Customer resolution of the verify flow (lines 689-704): a truthy
customer_id must exist; otherwise find-or-create by mobile. -/
def resolveVerifyCustomer (db : LocalDB) (vr : VerifyReq) :
    Except ApiError (CustomerRow × Bool) :=
  match vr.customer_id with
  | some cid =>
    if cid ≠ 0 then
      match db.customers.find? (fun c => c.id == cid) with
      | some c => .ok (c, false)
      | none => .error (.customerNotFound cid)
    else .ok (resolveCustomer db vr.order_data)
  | none => .ok (resolveCustomer db vr.order_data)

/-- Item-row construction of the verify flow (lines 763-807).  The
wholesale price falls back to the catalog retail price when the stored
caller price is falsy, and the discount is applied to the item row. -/
def verifyItemRow (c : Catalog) (ds : List Discount) (uid orderId idv : Nat)
    (it : ItemData) : OrderItemRow :=
  match c.products it.product_id with
  | none =>
    let wholesale := if it.price ≠ 0 then it.price else 0
    { id := idv, order_id := orderId, product_id := it.product_id,
      quantity := it.quantity, unit := it.unit, price := wholesale,
      total := it.quantity * wholesale, variation_id := it.variation_id,
      variation_pattern := it.variation_pattern }
  | some p =>
    let w0 := if it.price ≠ 0 then it.price else p.price
    let w := applyDiscount ds uid p.categories w0
    { id := idv, order_id := orderId, product_id := it.product_id,
      quantity := it.quantity, unit := it.unit, price := w,
      total := it.quantity * w, variation_id := it.variation_id,
      variation_pattern := it.variation_pattern }

def buildVerifyItemRows (c : Catalog) (ds : List Discount) (uid orderId : Nat) :
    Nat → List ItemData → List OrderItemRow
  | _, [] => []
  | n, it :: rest =>
    verifyItemRow c ds uid orderId n it :: buildVerifyItemRows c ds uid orderId (n + 1) rest

/-- Registration step of the verify flow (lines 730-835). -/
def registerVerifiedOrder (env : Env) (caller : UserRow) (vr : VerifyReq)
    (db : LocalDB) (ext : ExtState) (customer : CustomerRow) (customerIsNew : Bool)
    (total wholesale_total : Q) (order_number : String) : OrderOutcome :=
  let od := vr.order_data
  let referrer_id := lookupReferrer db od.referral_code
  let orderId := db.orders.length + 1
  let itemRows := buildVerifyItemRows env.catalog db.discounts caller.id orderId
    (db.order_items.length + 1) od.items
  let item_totals_sum := (itemRows.map OrderItemRow.total).sum
  -- order.tax_amount / order.discount_amount carry their column default
  -- 0.0 after the flush, so cooperation_total_amount is the item sum.
  let cooperation_total_amount := item_totals_sum + 0 - 0
  let orderRow : OrderRow :=
    { id := orderId, order_number := order_number, seller_id := caller.id,
      customer_id := customer.id, payment_method := some .online,
      status := "pending", is_new := true, total_amount := total,
      wholesale_amount := wholesale_total,
      cooperation_total_amount := cooperation_total_amount,
      tax_amount := 0, discount_amount := 0, referrer_id := referrer_id,
      installation_date := od.installation_date }
  if env.verifyCommitOk then
    ⟨.ok orderRow,
     { db with
       customers := db.customers ++ (if customerIsNew then [customer] else []),
       orders := db.orders ++ [orderRow],
       order_items := db.order_items ++ itemRows,
       installations := db.installations ++
         (match od.installation_date with
          | some d => [{ order_id := orderId, installation_date := d }]
          | none => []) },
     { ext with updates := ext.updates ++ [(vr.woo_order_id, "processing")] }⟩
  else ⟨.error .registrationFailed, db, ext⟩

/-- `POST /api/orders/verify-payment`: re-fetch the mirrored order, check
the payment predicate, and register locally unless an order with the
derived order_number already exists, in which case return it unchanged. -/
def verify_payment_and_register_order (env : Env) (caller : UserRow) (vr : VerifyReq)
    (db : LocalDB) (ext : ExtState) : OrderOutcome :=
  if roleAllowed caller.role then
    match env.extOrder vr.woo_order_id with
    | none => ⟨.error (.wooOrderNotFound vr.woo_order_id), db, ext⟩
    | some w =>
      if isPaid w then
        match resolveVerifyCustomer db vr with
        | .error e => ⟨.error e, db, ext⟩
        | .ok cust =>
          let total := if 0 < vr.total_amount then vr.total_amount else w.total
          let wholesale_total := if 0 < vr.wholesale_amount then vr.wholesale_amount else total
          let order_number := "ORD-" ++ env.today ++ "-" ++ toString vr.woo_order_id
          match db.orders.find? (fun o => o.order_number == order_number) with
          | some existing => ⟨.ok existing, db, ext⟩
          | none =>
            registerVerifiedOrder env caller vr db ext cust.1 cust.2 total
              wholesale_total order_number
      else ⟨.error .paymentNotCompleted, db, ext⟩
  else ⟨.error .forbidden, db, ext⟩

/-! ## Order.status_enum (models.py lines 119-158 and 352-364) -/

inductive OrderStatus where
  | PENDING
  | CONFIRMED
  | PROCESSING
  | DELIVERED
  | RETURNED
  | CANCELLED
  | PENDING_COMPLETION
  | IN_PROGRESS
  | SETTLED
deriving DecidableEq, BEq, Repr

/-- `member.value` (lowercase, matching the PostgreSQL enum). -/
def OrderStatus.value : OrderStatus → String
  | .PENDING => "pending"
  | .CONFIRMED => "confirmed"
  | .PROCESSING => "processing"
  | .DELIVERED => "delivered"
  | .RETURNED => "returned"
  | .CANCELLED => "cancelled"
  | .PENDING_COMPLETION => "pending_completion"
  | .IN_PROGRESS => "in_progress"
  | .SETTLED => "settled"

/-- `member.name` (the Python identifier of the member). -/
def OrderStatus.enumName : OrderStatus → String
  | .PENDING => "PENDING"
  | .CONFIRMED => "CONFIRMED"
  | .PROCESSING => "PROCESSING"
  | .DELIVERED => "DELIVERED"
  | .RETURNED => "RETURNED"
  | .CANCELLED => "CANCELLED"
  | .PENDING_COMPLETION => "PENDING_COMPLETION"
  | .IN_PROGRESS => "IN_PROGRESS"
  | .SETTLED => "SETTLED"

/-- Iteration order of `for member in cls`. -/
def orderStatusMembers : List OrderStatus :=
  [.PENDING, .CONFIRMED, .PROCESSING, .DELIVERED, .RETURNED, .CANCELLED,
   .PENDING_COMPLETION, .IN_PROGRESS, .SETTLED]

/-- `OrderStatus._missing_`: first member whose value equals the
lowercased input or whose name equals the uppercased input. -/
def orderStatusMissing (s : String) : Option OrderStatus :=
  orderStatusMembers.find? (fun m => m.value == strLower s || m.enumName == strUpper s)

/-- `Order.status_enum`: `_missing_` first; when it yields nothing the
`OrderStatus(self.status.lower())` constructor call raises `ValueError`
(its own `_missing_` hook also returns `None`), which the property
catches and turns into `PENDING`; a non-string (`None`) status is also
read as `PENDING`. -/
def status_enum (s : Option String) : OrderStatus :=
  match s with
  | none => .PENDING
  | some str => (orderStatusMissing str).getD .PENDING

/-! ## create_return (returns.py lines 16-81) -/

/-- Ownership gate of `create_return` (lines 31-39). -/
def returnPermitted (db : LocalDB) (caller : UserRow) (o : OrderRow) : Bool :=
  if caller.role == .seller then o.seller_id == caller.id
  else if caller.role == .store_manager then
    if o.seller_id == caller.id then true
    else
      match db.users.find? (fun u => u.id == o.seller_id) with
      | some s => s.created_by == some caller.id
      | none => false
  else true

/-- Validation loop of `create_return` (lines 45-66): an entry is checked
only when it carries an `order_item_id` key; the quantity bound uses the
globally re-fetched order item. -/
def validateReturnItems (db : LocalDB) (orderItemIds : List Nat) :
    List ReturnItemEntry → Except ApiError Unit
  | [] => .ok ()
  | e :: rest =>
    match e.order_item_id with
    | none => validateReturnItems db orderItemIds rest
    | some oid =>
      if orderItemIds.contains oid then
        match db.order_items.find? (fun oi => oi.id == oid) with
        | some oi =>
          if oi.quantity < e.quantity then .error (.returnQuantityExceeds oid)
          else validateReturnItems db orderItemIds rest
        | none => validateReturnItems db orderItemIds rest
      else .error (.returnItemNotInOrder oid)

structure ReturnCreateData where
  order_id : Nat
  reason : Option String
  items : List ReturnItemEntry
deriving DecidableEq, Repr

structure ReturnOutcome where
  result : Except ApiError ReturnRow
  db : LocalDB
deriving DecidableEq, Repr

/-- `POST /api/returns` (`create_return`). -/
def create_return (caller : UserRow) (rd : ReturnCreateData) (db : LocalDB) :
    ReturnOutcome :=
  if roleAllowed caller.role then
    match db.orders.find? (fun o => o.id == rd.order_id) with
    | none => ⟨.error .orderNotFound, db⟩
    | some o =>
      if returnPermitted db caller o then
        if rd.items.isEmpty then ⟨.error .noReturnItems, db⟩
        else
          let orderItemIds :=
            (db.order_items.filter (fun oi => oi.order_id == o.id)).map OrderItemRow.id
          match validateReturnItems db orderItemIds rd.items with
          | .error e => ⟨.error e, db⟩
          | .ok _ =>
            let row : ReturnRow :=
              { id := db.returns.length + 1, order_id := rd.order_id,
                reason := rd.reason, items := rd.items, status := "pending",
                is_new := true }
            ⟨.ok row, { db with returns := db.returns ++ [row] }⟩
      else ⟨.error .accessDenied, db⟩
  else ⟨.error .forbidden, db⟩

/-! ## Spec-side comparator for discount resolution -/

/-- The discount-resolution algorithm as the spec words it (refinement
comparator, following the spec text, not the source): first an active
(user, category) discount across all of the product's categories in
order, and only if none of the categories has one, the active
(user, none) general discount. -/
def specDiscountResolve (ds : List Discount) (uid : Nat) (catIds : List Nat) :
    Option Discount :=
  match catIds.findSome? (fun cid => findActiveDiscount ds uid (some cid)) with
  | some d => some d
  | none => findActiveDiscount ds uid none

/-! ## Concrete scenarios used by the claims -/

def c1Catalog : Catalog :=
  { products := fun pid => if pid = 4 then some { price := 300, categories := [] } else none,
    variations := fun _ => [] }

def c1Env : Env :=
  { catalog := c1Catalog, today := "20250101", wooCreateResult := some 7,
    commitOk := true, retryOk := true, verifyCommitOk := true,
    colleagueApi := fun _ => none, extOrder := fun _ => none }

def c1Caller : UserRow :=
  { id := 1, role := .seller, credit := some 1000, is_active := true,
    referral_code := none, created_by := none }

def c1Db : LocalDB :=
  { users := [c1Caller], customers := [], orders := [], order_items := [],
    discounts := [{ user_id := 1, category_id := none, discount_percentage := 10,
                    is_active := true }],
    installations := [], returns := [] }

def c1Od : OrderCreateData :=
  { customer_name := "N", customer_mobile := "0912", customer_address := none,
    items := [{ product_id := 4, quantity := 2, unit := "package", price := 100,
                variation_id := none, variation_pattern := none }],
    payment_method := some .invoice, installation_date := none,
    installation_notes := none, notes := none, referral_code := none }

def c1Out : OrderOutcome := create_order c1Env c1Caller c1Od c1Db ⟨[], []⟩

def c6Catalog : Catalog :=
  { products := fun pid => if pid = 5 then some { price := 100, categories := [] } else none,
    variations := fun _ => [] }

def c6Item : ItemData :=
  { product_id := 5, quantity := 1/2, unit := "m2", price := 80,
    variation_id := none, variation_pattern := none }

def c6Pi : PricedItem :=
  (priceItem c6Catalog [] 1 c6Item).toOption.getD
    { product_id := 0, quantity := 0, unit := "", retailPrice := 0, wholesalePrice := 0,
      retailTotal := 0, wholesaleTotal := 0, wooQuantity := 0,
      variation_id := none, variation_pattern := none }

def c7Discounts : List Discount :=
  [{ user_id := 1, category_id := some 2, discount_percentage := 10, is_active := true },
   { user_id := 1, category_id := none, discount_percentage := 5, is_active := true }]

def c10Caller : UserRow :=
  { id := 1, role := .seller, credit := none, is_active := true,
    referral_code := none, created_by := none }

def c10Order : OrderRow :=
  { id := 1, order_number := "ORD-20250101-7", seller_id := 1, customer_id := 1,
    payment_method := none, status := "pending", is_new := true, total_amount := 0,
    wholesale_amount := 0, cooperation_total_amount := 0, tax_amount := 0,
    discount_amount := 0, referrer_id := none, installation_date := none }

def c10Db : LocalDB :=
  { users := [c10Caller], customers := [], orders := [c10Order],
    order_items := [{ id := 1, order_id := 1, product_id := 4, quantity := 2,
                      unit := "package", price := 10, total := 20,
                      variation_id := none, variation_pattern := none }],
    discounts := [], installations := [], returns := [] }

def c10Rd : ReturnCreateData :=
  { order_id := 1, reason := none, items := [{ order_item_id := none, quantity := 999 }] }

def c2aCatalog : Catalog :=
  { products := fun pid => if pid = 3 then some { price := 100, categories := [7] } else none,
    variations := fun _ => [] }

def c2bCatalog : Catalog :=
  { products := fun pid => if pid = 3 then some { price := 250, categories := [7] } else none,
    variations := fun _ => [] }

def c2Items : List ItemData :=
  [{ product_id := 3, quantity := 2, unit := "package", price := 80,
     variation_id := none, variation_pattern := none }]

def c2vCustomer : CustomerRow := { id := 4, name := "C", mobile := "0935", address := none }

def c2vDb : LocalDB :=
  { users := [c1Caller], customers := [c2vCustomer], orders := [], order_items := [],
    discounts := [], installations := [], returns := [] }

def c2vOd : OrderCreateData :=
  { customer_name := "C", customer_mobile := "0935", customer_address := none,
    items := [{ product_id := 3, quantity := 1, unit := "package", price := 0,
                variation_id := none, variation_pattern := none }],
    payment_method := some .online, installation_date := none,
    installation_notes := none, notes := none, referral_code := none }

def c2vReq : VerifyReq :=
  { woo_order_id := 9, order_data := c2vOd, customer_id := some 4,
    total_amount := 7, wholesale_amount := 5 }

def c2vWoo : WooOrderInfo := { status := "processing", payment_status := "x", total := 0 }

def c2vCatalog1 : Catalog :=
  { products := fun pid => if pid = 3 then some { price := 100, categories := [] } else none,
    variations := fun _ => [] }

def c2vCatalog2 : Catalog :=
  { products := fun pid => if pid = 3 then some { price := 200, categories := [] } else none,
    variations := fun _ => [] }

def c2vEnv1 : Env :=
  { catalog := c2vCatalog1,
    today := "20250101", wooCreateResult := none, commitOk := true, retryOk := true,
    verifyCommitOk := true, colleagueApi := fun _ => none,
    extOrder := fun oid => if oid = 9 then some c2vWoo else none }

def c2vEnv2 : Env :=
  { catalog := c2vCatalog2,
    today := "20250101", wooCreateResult := none, commitOk := true, retryOk := true,
    verifyCommitOk := true, colleagueApi := fun _ => none,
    extOrder := fun oid => if oid = 9 then some c2vWoo else none }

def c2vOut1 : OrderOutcome :=
  verify_payment_and_register_order c2vEnv1 c1Caller c2vReq c2vDb ⟨[], []⟩

def c2vOut2 : OrderOutcome :=
  verify_payment_and_register_order c2vEnv2 c1Caller c2vReq c2vDb ⟨[], []⟩

def c3pItem : ItemData :=
  { product_id := 2, quantity := 1, unit := "package", price := 0,
    variation_id := none, variation_pattern := none }

def c3pCatalog : Catalog :=
  { products := fun pid => if pid = 2 then some { price := 500, categories := [] } else none,
    variations := fun _ => [] }

def c3pEnv : Env :=
  { catalog := c3pCatalog, today := "20250101", wooCreateResult := some 7,
    commitOk := true, retryOk := true, verifyCommitOk := true,
    colleagueApi := fun pid => if pid = 2 then some 50 else none,
    extOrder := fun _ => none }

def c3wEnv : Env :=
  { catalog := c3pCatalog, today := "20250101", wooCreateResult := some 7,
    commitOk := true, retryOk := true, verifyCommitOk := true,
    colleagueApi := fun _ => none, extOrder := fun _ => none }

def c3pDb : LocalDB :=
  { users := [c1Caller], customers := [], orders := [], order_items := [],
    discounts := [], installations := [], returns := [] }

def c3pOd : OrderCreateData :=
  { customer_name := "N", customer_mobile := "0912", customer_address := none,
    items := [c3pItem], payment_method := some .online, installation_date := none,
    installation_notes := none, notes := none, referral_code := none }

def c3pOut : PendingOutcome :=
  create_pending_order_for_payment c3pEnv c1Caller c3pOd c3pDb ⟨[], []⟩

def c4Caller : UserRow :=
  { id := 1, role := .seller, credit := some 10, is_active := true,
    referral_code := none, created_by := none }

def c4Db : LocalDB :=
  { users := [c4Caller], customers := [], orders := [], order_items := [],
    discounts := [], installations := [], returns := [] }

def c4Catalog : Catalog :=
  { products := fun pid => if pid = 4 then some { price := 300, categories := [] } else none,
    variations := fun _ => [] }

def c4Env : Env :=
  { catalog := c4Catalog, today := "20250101", wooCreateResult := some 7,
    commitOk := true, retryOk := true, verifyCommitOk := true,
    colleagueApi := fun _ => none, extOrder := fun _ => none }

def c4Od : OrderCreateData :=
  { customer_name := "N", customer_mobile := "0912", customer_address := none,
    items := [{ product_id := 4, quantity := 1, unit := "package", price := 100,
                variation_id := none, variation_pattern := none }],
    payment_method := some .credit, installation_date := none,
    installation_notes := none, notes := none, referral_code := none }

def c4Out : OrderOutcome := create_order c4Env c4Caller c4Od c4Db ⟨[], []⟩

def c4wCaller : UserRow :=
  { id := 1, role := .seller, credit := some 150, is_active := true,
    referral_code := none, created_by := none }

def c4wDb : LocalDB :=
  { users := [c4wCaller], customers := [], orders := [], order_items := [],
    discounts := [], installations := [], returns := [] }

def c4wPriced : List PricedItem :=
  (priceItems c4Env.catalog c4wDb.discounts c4wCaller.id c4Od.items).toOption.getD []

def c8Customer : CustomerRow := { id := 4, name := "C", mobile := "0935", address := none }

def c8Order : OrderRow :=
  { id := 1, order_number := "ORD-" ++ "20250101" ++ "-" ++ toString 9, seller_id := 1,
    customer_id := 4, payment_method := some .online, status := "pending", is_new := true,
    total_amount := 7, wholesale_amount := 5, cooperation_total_amount := 5,
    tax_amount := 0, discount_amount := 0, referrer_id := none, installation_date := none }

def c8Db : LocalDB :=
  { users := [c1Caller], customers := [c8Customer], orders := [c8Order],
    order_items := [], discounts := [], installations := [], returns := [] }

def c8Od : OrderCreateData :=
  { customer_name := "C", customer_mobile := "0935", customer_address := none,
    items := [], payment_method := some .online, installation_date := none,
    installation_notes := none, notes := none, referral_code := none }

def c8Req : VerifyReq :=
  { woo_order_id := 9, order_data := c8Od, customer_id := some 4,
    total_amount := 7, wholesale_amount := 5 }

def c8Catalog : Catalog := { products := fun _ => none, variations := fun _ => [] }

def c8Env : Env :=
  { catalog := c8Catalog,
    today := "20250101", wooCreateResult := none, commitOk := true, retryOk := true,
    verifyCommitOk := true, colleagueApi := fun _ => none,
    extOrder := fun oid => if oid = 9 then some c2vWoo else none }

/-! ## Helper lemmas -/

lemma priceItem_missing (c : Catalog) (ds : List Discount) (uid : Nat) (it : ItemData)
    (hprod : (c.products it.product_id).isSome = true) (hneg : it.price ≤ 0) :
    priceItem c ds uid it = .error (.missingCooperationPrice it.product_id) := by
  unfold priceItem
  cases hp : c.products it.product_id with
  | none => rw [hp] at hprod; simp at hprod
  | some p => simp [hneg]

lemma priceItem_ok (c : Catalog) (ds : List Discount) (uid : Nat) (it : ItemData)
    (hprod : (c.products it.product_id).isSome = true) (hpos : 0 < it.price) :
    ∃ pi, priceItem c ds uid it = .ok pi := by
  cases hp : c.products it.product_id with
  | none => rw [hp] at hprod; simp at hprod
  | some p =>
    simp only [priceItem, hp, if_neg (not_le.mpr hpos)]
    exact ⟨_, rfl⟩

/-- A cart whose products all resolve but which contains a non-positive
caller price makes the pricing loop fail with the
missing-cooperation-price error. -/
lemma priceItems_missing (c : Catalog) (ds : List Discount) (uid : Nat) :
    ∀ items : List ItemData,
      (∀ it ∈ items, (c.products it.product_id).isSome = true) →
      (∃ it ∈ items, it.price ≤ 0) →
      ∃ pid, priceItems c ds uid items = .error (.missingCooperationPrice pid)
  | [], _, hmiss => by simp at hmiss
  | it :: rest, hall, hmiss => by
    by_cases hneg : it.price ≤ 0
    · refine ⟨it.product_id, ?_⟩
      have h := priceItem_missing c ds uid it (hall it (by simp)) hneg
      simp [priceItems, h]
    · have hpos : 0 < it.price := lt_of_not_le hneg
      obtain ⟨pi, hpi⟩ := priceItem_ok c ds uid it (hall it (by simp)) hpos
      have hrest : ∃ x ∈ rest, x.price ≤ 0 := by
        obtain ⟨x, hx, hxle⟩ := hmiss
        rcases List.mem_cons.mp hx with h | h
        · exact absurd (h ▸ hxle) hneg
        · exact ⟨x, h, hxle⟩
      obtain ⟨pid, hp⟩ :=
        priceItems_missing c ds uid rest (fun x hx => hall x (List.mem_cons_of_mem it hx)) hrest
      refine ⟨pid, ?_⟩
      simp [priceItems, hpi, hp]

lemma pricePendingItem_missing (c : Catalog) (api : Nat → Option Q) (ds : List Discount)
    (uid : Nat) (it : ItemData)
    (hprod : (c.products it.product_id).isSome = true) (hneg : it.price ≤ 0)
    (happi : api it.product_id = none) :
    pricePendingItem c api ds uid it = .error (.missingCooperationPrice it.product_id) := by
  unfold pricePendingItem
  cases hp : c.products it.product_id with
  | none => rw [hp] at hprod; simp at hprod
  | some p => simp [hneg, happi]

lemma pricePendingItem_ok (c : Catalog) (api : Nat → Option Q) (ds : List Discount)
    (uid : Nat) (it : ItemData)
    (hprod : (c.products it.product_id).isSome = true) (hpos : 0 < it.price) :
    ∃ pi, pricePendingItem c api ds uid it = .ok pi := by
  cases hp : c.products it.product_id with
  | none => rw [hp] at hprod; simp at hprod
  | some p =>
    simp only [pricePendingItem, hp, if_neg (not_le.mpr hpos)]
    exact ⟨_, rfl⟩

lemma pricePendingItems_missing (c : Catalog) (api : Nat → Option Q) (ds : List Discount)
    (uid : Nat) :
    ∀ items : List ItemData,
      (∀ it ∈ items, (c.products it.product_id).isSome = true) →
      (∃ it ∈ items, it.price ≤ 0) →
      (∀ pid, api pid = none) →
      ∃ pid, pricePendingItems c api ds uid items = .error (.missingCooperationPrice pid)
  | [], _, hmiss, _ => by simp at hmiss
  | it :: rest, hall, hmiss, hapi => by
    by_cases hneg : it.price ≤ 0
    · refine ⟨it.product_id, ?_⟩
      have h := pricePendingItem_missing c api ds uid it (hall it (by simp)) hneg
        (hapi it.product_id)
      simp [pricePendingItems, h]
    · have hpos : 0 < it.price := lt_of_not_le hneg
      obtain ⟨pi, hpi⟩ := pricePendingItem_ok c api ds uid it (hall it (by simp)) hpos
      have hrest : ∃ x ∈ rest, x.price ≤ 0 := by
        obtain ⟨x, hx, hxle⟩ := hmiss
        rcases List.mem_cons.mp hx with h | h
        · exact absurd (h ▸ hxle) hneg
        · exact ⟨x, h, hxle⟩
      obtain ⟨pid, hp⟩ := pricePendingItems_missing c api ds uid rest
        (fun x hx => hall x (List.mem_cons_of_mem it hx)) hrest hapi
      refine ⟨pid, ?_⟩
      simp [pricePendingItems, hpi, hp]

/-- The wholesale side of one priced item depends on the catalog only
through the product's existence and category list, never its price. -/
lemma priceItem_wholesale_congr (c1 c2 : Catalog) (ds : List Discount) (uid : Nat)
    (it : ItemData)
    (hcat : (c1.products it.product_id).map WooProduct.categories =
            (c2.products it.product_id).map WooProduct.categories) :
    (priceItem c1 ds uid it).map PricedItem.wholesaleTotal =
    (priceItem c2 ds uid it).map PricedItem.wholesaleTotal := by
  cases h1 : c1.products it.product_id with
  | none =>
    cases h2 : c2.products it.product_id with
    | none => simp [priceItem, h1, h2]
    | some p2 => rw [h1, h2] at hcat; simp at hcat
  | some p1 =>
    cases h2 : c2.products it.product_id with
    | none => rw [h1, h2] at hcat; simp at hcat
    | some p2 =>
      rw [h1, h2] at hcat
      simp only [Option.map_some', Option.some.injEq] at hcat
      by_cases hneg : it.price ≤ 0
      · simp [priceItem, h1, h2, hneg]
      · simp only [priceItem, h1, h2, if_neg hneg, Except.map]
        rw [hcat]

lemma priceItems_wholesale_list_congr (c1 c2 : Catalog) (ds : List Discount) (uid : Nat) :
    ∀ items : List ItemData,
      (∀ it ∈ items, (c1.products it.product_id).map WooProduct.categories =
                     (c2.products it.product_id).map WooProduct.categories) →
      (priceItems c1 ds uid items).map (List.map PricedItem.wholesaleTotal) =
      (priceItems c2 ds uid items).map (List.map PricedItem.wholesaleTotal)
  | [], _ => rfl
  | it :: rest, h => by
    have hit := priceItem_wholesale_congr c1 c2 ds uid it (h it (by simp))
    have ih := priceItems_wholesale_list_congr c1 c2 ds uid rest
      (fun x hx => h x (List.mem_cons_of_mem it hx))
    cases e1 : priceItem c1 ds uid it with
    | error a =>
      cases e2 : priceItem c2 ds uid it with
      | error b =>
        rw [e1, e2] at hit
        simp only [Except.map, Except.error.injEq] at hit
        simp [priceItems, e1, e2, hit]
      | ok p2 => rw [e1, e2] at hit; simp [Except.map] at hit
    | ok p1 =>
      cases e2 : priceItem c2 ds uid it with
      | error b => rw [e1, e2] at hit; simp [Except.map] at hit
      | ok p2 =>
        rw [e1, e2] at hit
        simp only [Except.map, Except.ok.injEq] at hit
        cases r1 : priceItems c1 ds uid rest with
        | error a2 =>
          cases r2 : priceItems c2 ds uid rest with
          | error b2 =>
            rw [r1, r2] at ih
            simp only [Except.map, Except.error.injEq] at ih
            simp [priceItems, e1, e2, r1, r2, ih]
          | ok l2 => rw [r1, r2] at ih; simp [Except.map] at ih
        | ok l1 =>
          cases r2 : priceItems c2 ds uid rest with
          | error b2 => rw [r1, r2] at ih; simp [Except.map] at ih
          | ok l2 =>
            rw [r1, r2] at ih
            simp only [Except.map, Except.ok.injEq] at ih
            simp [priceItems, e1, e2, r1, r2, Except.map, hit, ih]

lemma find_deductCredit (users : List UserRow) (uid : Nat) (amt : Q) :
    (deductCredit users uid amt).find? (fun u => u.id == uid) =
      (users.find? (fun u => u.id == uid)).map
        (fun u => { u with credit := u.credit.map (· - amt) }) := by
  induction users with
  | nil => rfl
  | cons u rest ih =>
    by_cases hb : u.id = uid
    · have h1 : (({ u with credit := u.credit.map (· - amt) } : UserRow).id == uid) = true := by
        simp [hb]
      have h2 : (u.id == uid) = true := by simp [hb]
      simp only [deductCredit, List.map_cons, if_pos hb, List.find?_cons, h1, h2]
      rfl
    · have h1 : (u.id == uid) = false := by simp [hb]
      simp only [deductCredit, List.map_cons, if_neg hb, List.find?_cons, h1]
      simpa only [deductCredit] using ih

lemma one_le_pyMax (b : Int) : 1 ≤ pyMax 1 b := by
  by_cases h : (1 : Int) ≤ b
  · simp [pyMax, h]
  · simp [pyMax, h]

lemma validateReturnItems_keyless (db : LocalDB) (ids : List Nat) :
    ∀ items : List ReturnItemEntry, (∀ e ∈ items, e.order_item_id = none) →
      validateReturnItems db ids items = .ok ()
  | [], _ => rfl
  | e :: rest, h => by
    have he := h e (by simp)
    simp only [validateReturnItems, he]
    exact validateReturnItems_keyless db ids rest (fun x hx => h x (List.mem_cons_of_mem e hx))

/-! ## Claim C1 -/

/-- Claim C1 (status: code_bug).  The claimed invariants fail as soon as a
discount applies: for seller 1 with an active 10% general discount and a
cart of one item (caller price 100, quantity 2), `create_order` persists
`wholesale_amount = 180` (discounted) while the created OrderItem's
`total` is `200` (quantity times the raw caller price), so
`wholesale_amount ≠ sum of item totals` and
`cooperation_total_amount = 200 ≠ wholesale_amount + tax − discount = 180`.
The per-item equation `total == quantity * price` does hold. -/
theorem create_order_discount_breaks_item_sum_invariant :
    c1Out.result.toOption.map OrderRow.wholesale_amount = some 180 ∧
    ((c1Out.db.order_items.filter (fun oi => oi.order_id == 1)).map OrderItemRow.total).sum
      = 200 ∧
    c1Out.result.toOption.map OrderRow.cooperation_total_amount = some 200 ∧
    c1Out.result.toOption.map OrderRow.tax_amount = some 0 ∧
    c1Out.result.toOption.map OrderRow.discount_amount = some 0 ∧
    (∀ oi ∈ c1Out.db.order_items, oi.total = oi.quantity * oi.price) ∧
    (180 : Q) ≠ 200 + 0 - 0 := by
  refine ⟨?_, ?_, ?_, ?_, ?_, ?_, by norm_num⟩ <;>
    norm_num [c1Out, c1Env, c1Caller, c1Od, c1Db, c1Catalog, create_order,
      createOrderAfterPricing, createOrderAfterWoo, commitOrder, priceItems, priceItem,
      applyDiscount, find_applicable_discount, get_user_discount_for_category,
      findActiveDiscount, resolveRetail, resolveCustomer, roleAllowed, wooLineOfPriced,
      lookupReferrer, freshCredit, deductCredit, buildItemRows, mkOrderItem,
      paymentMethodValue, pyRound, pyMax, List.find?, List.findSome?, Except.toOption,
      (by decide : PaymentMethod.invoice ≠ PaymentMethod.credit),
      (by decide : PaymentMethod.invoice ≠ PaymentMethod.online)]

/-! ## Claim C6 -/

/-- Claim C6, counterexample.  For quantity 1/2 and catalog retail price
100, the code's retail line total is `0.5 * 100 = 50`, not the claimed
`max(1, ceil(0.5)) * 100 = 100`; the rounding (`max(1, round(q))`) is
applied only to the externally reported quantity, and `round` is
half-to-even, not up: for quantity 5/2 the reported quantity is 2 while
rounding up would give 3. -/
theorem retail_total_ignores_quantity_rounding :
    priceItem c6Catalog [] 1 c6Item = .ok c6Pi ∧
    c6Pi.retailTotal = 50 ∧
    ((pyMax 1 (ceilQ (1/2)) : Int) : Q) * 100 = 100 ∧
    c6Pi.retailTotal ≠ ((pyMax 1 (ceilQ (1/2)) : Int) : Q) * 100 ∧
    c6Pi.wooQuantity = 1 ∧
    c6Pi.wholesaleTotal = (1/2 : Q) * 80 ∧
    pyRound (5/2) = 2 ∧ ceilQ (5/2) = 3 := by
  refine ⟨?_, ?_, ?_, ?_, ?_, ?_, ?_, ?_⟩ <;>
    norm_num [c6Pi, c6Catalog, c6Item, priceItem, applyDiscount,
      find_applicable_discount, get_user_discount_for_category, findActiveDiscount,
      resolveRetail, pyRound, pyMax, ceilQ, Except.toOption, List.findSome?]

/-- Claim C6 as amended: the retail line total is the exact (unrounded)
quantity times the retail unit price, the wholesale line total the exact
quantity times the wholesale unit price, and only the quantity reported
to the external system is rounded — `max(1, round_half_even(q))`, which
is at least 1. -/
theorem line_totals_use_exact_quantity (c : Catalog) (ds : List Discount) (uid : Nat)
    (it : ItemData) (pi : PricedItem) (h : priceItem c ds uid it = .ok pi) :
    pi.retailTotal = it.quantity * pi.retailPrice ∧
    pi.wholesaleTotal = it.quantity * pi.wholesalePrice ∧
    pi.wooQuantity = pyMax 1 (pyRound it.quantity) ∧
    1 ≤ pi.wooQuantity := by
  cases hp : c.products it.product_id with
  | none => simp [priceItem, hp] at h
  | some p =>
    by_cases hneg : it.price ≤ 0
    · simp [priceItem, hp, hneg] at h
    · simp only [priceItem, hp, if_neg hneg] at h
      injection h with h2
      subst h2
      exact ⟨rfl, rfl, rfl, one_le_pyMax _⟩

/-- Witness for the amended C6 theorem at the concrete 1/2-quantity item. -/
theorem line_totals_use_exact_quantity_witness :
    c6Pi.retailTotal = c6Item.quantity * c6Pi.retailPrice ∧
    c6Pi.wholesaleTotal = c6Item.quantity * c6Pi.wholesalePrice ∧
    c6Pi.wooQuantity = pyMax 1 (pyRound c6Item.quantity) ∧
    1 ≤ c6Pi.wooQuantity :=
  line_totals_use_exact_quantity c6Catalog [] 1 c6Item c6Pi (by
    norm_num [c6Pi, c6Catalog, c6Item, priceItem, applyDiscount,
      find_applicable_discount, get_user_discount_for_category, findActiveDiscount,
      resolveRetail, pyRound, pyMax, Except.toOption, List.findSome?])

/-! ## Claim C7 -/

/-- Claim C7 (status: code_bug).  With an active category-specific 10%
discount on category 2 and an active general 5% discount, a product in
categories [1, 2] resolves to the general 5% discount: the per-category
helper already falls back to the general discount, so the loop stops at
category 1 and never reaches category 2's specific discount.  The spec's
algorithm (`specDiscountResolve`) yields 10%. -/
theorem general_discount_shadows_category_discount :
    (find_applicable_discount c7Discounts 1 [1, 2]).map Discount.discount_percentage
      = some 5 ∧
    (specDiscountResolve c7Discounts 1 [1, 2]).map Discount.discount_percentage
      = some 10 ∧
    (5 : Q) ≠ 10 := by
  refine ⟨by decide, by decide, by decide⟩

/-! ## Claim C9 -/

/-- Claim C9: `status_enum` is total; any stored string whose lowercase
form is a member value or whose uppercase form is a member name maps to
a matching member, everything else (including a `None` status) is read
as `PENDING`. -/
theorem status_enum_total_and_case_tolerant :
    status_enum none = .PENDING ∧
    ∀ s : String,
      (∀ m ∈ orderStatusMembers, (m.value = strLower s ∨ m.enumName = strUpper s) →
        (status_enum (some s)).value = strLower s ∨
          (status_enum (some s)).enumName = strUpper s) ∧
      ((∀ m ∈ orderStatusMembers, m.value ≠ strLower s ∧ m.enumName ≠ strUpper s) →
        status_enum (some s) = .PENDING) := by
  refine ⟨rfl, fun s => ⟨?_, ?_⟩⟩
  · intro m hm hmatch
    simp only [status_enum, orderStatusMissing]
    cases hf : orderStatusMembers.find?
        (fun x => x.value == strLower s || x.enumName == strUpper s) with
    | some r =>
      have hr := List.find?_some hf
      simp only [Bool.or_eq_true, beq_iff_eq] at hr
      simpa using hr
    | none =>
      have hnone := List.find?_eq_none.mp hf m hm
      simp only [Bool.or_eq_true, beq_iff_eq, not_or] at hnone
      rcases hmatch with h | h
      · exact absurd h hnone.1
      · exact absurd h hnone.2
  · intro hno
    simp only [status_enum, orderStatusMissing]
    cases hf : orderStatusMembers.find?
        (fun x => x.value == strLower s || x.enumName == strUpper s) with
    | some r =>
      have hr := List.find?_some hf
      have hmem := List.mem_of_find?_eq_some hf
      simp only [Bool.or_eq_true, beq_iff_eq] at hr
      rcases hr with h | h
      · exact absurd h (hno r hmem).1
      · exact absurd h (hno r hmem).2
    | none => rfl

/-- Witness for C9: an arbitrary garbage status and a legacy-uppercase
status both read without raising. -/
theorem status_enum_total_and_case_tolerant_witness :
    status_enum (some "garbage") = .PENDING ∧ status_enum none = .PENDING :=
  ⟨(status_enum_total_and_case_tolerant.2 "garbage").2 (by
      intro m hm
      fin_cases hm <;> exact ⟨by decide, by decide⟩),
   status_enum_total_and_case_tolerant.1⟩

/-! ## Claim C10 -/

/-- Claim C10: a submitted return entry lacking the `order_item_id` key
bypasses both the belongs-to-order check and the quantity bound, and the
return is still created with status "pending". -/
theorem return_entries_without_key_bypass_validation
    (caller : UserRow) (rd : ReturnCreateData) (db : LocalDB) (o : OrderRow)
    (hrole : roleAllowed caller.role = true)
    (horder : db.orders.find? (fun x => x.id == rd.order_id) = some o)
    (hperm : returnPermitted db caller o = true)
    (hne : rd.items ≠ [])
    (hkeys : ∀ e ∈ rd.items, e.order_item_id = none) :
    validateReturnItems db
      ((db.order_items.filter (fun oi => oi.order_id == o.id)).map OrderItemRow.id)
      rd.items = .ok () ∧
    (create_return caller rd db).result = .ok
      { id := db.returns.length + 1, order_id := rd.order_id, reason := rd.reason,
        items := rd.items, status := "pending", is_new := true } ∧
    (create_return caller rd db).db.returns = db.returns ++
      [{ id := db.returns.length + 1, order_id := rd.order_id, reason := rd.reason,
         items := rd.items, status := "pending", is_new := true }] := by
  have hv := validateReturnItems_keyless db
    ((db.order_items.filter (fun oi => oi.order_id == o.id)).map OrderItemRow.id)
    rd.items hkeys
  have hempty : rd.items.isEmpty = false := by
    cases h : rd.items with
    | nil => exact absurd h hne
    | cons a l => simp [h]
  refine ⟨hv, ?_, ?_⟩ <;> simp [create_return, hrole, horder, hperm, hempty, hv]

/-- Witness for C10: a return entry with no `order_item_id` and quantity
999 against an order whose only item has quantity 2 is accepted. -/
theorem return_entries_without_key_bypass_validation_witness :
    validateReturnItems c10Db
      ((c10Db.order_items.filter (fun oi => oi.order_id == c10Order.id)).map OrderItemRow.id)
      c10Rd.items = .ok () ∧
    (create_return c10Caller c10Rd c10Db).result = .ok
      { id := c10Db.returns.length + 1, order_id := c10Rd.order_id, reason := c10Rd.reason,
        items := c10Rd.items, status := "pending", is_new := true } ∧
    (create_return c10Caller c10Rd c10Db).db.returns = c10Db.returns ++
      [{ id := c10Db.returns.length + 1, order_id := c10Rd.order_id, reason := c10Rd.reason,
         items := c10Rd.items, status := "pending", is_new := true }] :=
  return_entries_without_key_bypass_validation c10Caller c10Rd c10Db c10Order
    rfl rfl rfl (by decide) (by decide)

/-! ## Claim C2 -/

/-- Claim C2, counterexample.  In `verify_payment_and_register_order`,
two runs that differ only in the catalog product's listed retail price
(100 vs 200), with identical caller-supplied cooperation prices (the
item price is 0 in both runs), quantities and discounts, commit
different wholesale-side figures: the OrderItem totals are 100 vs 200
and `cooperation_total_amount` is 100 vs 200 — the absent caller price
falls back to the catalog retail price (orders.py line 769). -/
theorem verify_item_pricing_depends_on_catalog_retail :
    c2vOut1.result.toOption.map OrderRow.cooperation_total_amount = some 100 ∧
    c2vOut2.result.toOption.map OrderRow.cooperation_total_amount = some 200 ∧
    c2vOut1.db.order_items.map OrderItemRow.total = [100] ∧
    c2vOut2.db.order_items.map OrderItemRow.total = [200] ∧
    (c2vCatalog1.products 3).map WooProduct.categories
      = (c2vCatalog2.products 3).map WooProduct.categories ∧
    (100 : Q) ≠ 200 := by
  refine ⟨?_, ?_, ?_, ?_, rfl, by norm_num⟩ <;>
    norm_num [c2vOut1, c2vOut2, c2vEnv1, c2vEnv2, c2vCatalog1, c2vCatalog2, c2vReq,
      c2vOd, c2vDb, c2vWoo, c2vCustomer, c1Caller, verify_payment_and_register_order,
      registerVerifiedOrder, resolveVerifyCustomer, resolveCustomer, verifyItemRow,
      buildVerifyItemRows, isPaid, applyDiscount, find_applicable_discount,
      get_user_discount_for_category, findActiveDiscount, lookupReferrer, roleAllowed,
      Except.toOption, List.find?, List.findSome?,
      (by decide : strLower "processing" = "processing"),
      (by decide : strLower "x" = "x")]

/-- Claim C2 as amended: in `create_order`'s pricing, the computed
wholesale total is independent of the catalog's listed retail prices —
two catalogs agreeing on product existence and category lists (but with
arbitrary prices) produce identical wholesale totals, and identical
pricing errors.  (In the verify flow the independence fails, see the
counterexample.) -/
theorem create_order_wholesale_independent_of_retail (c1 c2 : Catalog)
    (ds : List Discount) (uid : Nat) (items : List ItemData)
    (hcat : ∀ it ∈ items, (c1.products it.product_id).map WooProduct.categories =
                          (c2.products it.product_id).map WooProduct.categories) :
    (priceItems c1 ds uid items).map (fun l => (l.map PricedItem.wholesaleTotal).sum) =
    (priceItems c2 ds uid items).map (fun l => (l.map PricedItem.wholesaleTotal).sum) := by
  have h := priceItems_wholesale_list_congr c1 c2 ds uid items hcat
  cases e1 : priceItems c1 ds uid items with
  | error a =>
    cases e2 : priceItems c2 ds uid items with
    | error b =>
      rw [e1, e2] at h
      simp only [Except.map, Except.error.injEq] at h
      simp [Except.map, h]
    | ok l2 => rw [e1, e2] at h; simp [Except.map] at h
  | ok l1 =>
    cases e2 : priceItems c2 ds uid items with
    | error b => rw [e1, e2] at h; simp [Except.map] at h
    | ok l2 =>
      rw [e1, e2] at h
      simp only [Except.map, Except.ok.injEq] at h
      simp [Except.map, h]

/-- Witness for the amended C2 theorem: catalogs differing only in the
listed price of product 3 (100 vs 250) price the same cart to the same
wholesale total. -/
theorem create_order_wholesale_independent_of_retail_witness :
    (priceItems c2aCatalog [] 1 c2Items).map
      (fun l => (l.map PricedItem.wholesaleTotal).sum) =
    (priceItems c2bCatalog [] 1 c2Items).map
      (fun l => (l.map PricedItem.wholesaleTotal).sum) :=
  create_order_wholesale_independent_of_retail c2aCatalog c2bCatalog [] 1 c2Items
    (by
      intro it hit
      simp only [c2Items, List.mem_singleton] at hit
      subst hit
      rfl)

/-! ## Claim C3 -/

/-- Claim C3, counterexample.  In `create_pending_order_for_payment`, an
item with a falsy caller price does not abort: the colleague-price API
is consulted and the order is created externally with the API's price
(50), not the catalog retail price (500) — so order creation neither
fails nor skips the external call when the API fallback succeeds. -/
theorem pending_order_api_fallback_defeats_missing_price_failure :
    c3pOut.result.toOption.map PendingResult.wholesale_amount = some 50 ∧
    c3pOut.result.toOption.map PendingResult.total_amount = some 500 ∧
    c3pOut.ext.created.length = 1 ∧
    c3pOut.db = c3pDb := by
  refine ⟨?_, ?_, ?_, ?_⟩ <;>
    norm_num [c3pOut, c3pEnv, c3pCatalog, c3pOd, c3pItem, c3pDb, c1Caller,
      create_pending_order_for_payment, pricePendingItems, pricePendingItem,
      applyDiscount, find_applicable_discount, get_user_discount_for_category,
      findActiveDiscount, resolveRetail, resolveCustomer, roleAllowed,
      wooLineOfPricedWholesale, pyRound, pyMax, Except.toOption, List.find?,
      List.findSome?]

/-- Claim C3 as amended: in `create_order`, a cart containing an item with
a non-positive caller price (with all products resolvable) fails with the
missing-cooperation-price error, with no external order-create call and
no local rows; in `create_pending_order_for_payment` the same holds only
when the colleague-price API also yields nothing — otherwise the API
price (never the retail price) is used. -/
theorem missing_cooperation_price_fatal (env : Env) (caller : UserRow)
    (od : OrderCreateData) (db : LocalDB) (ext : ExtState)
    (hrole : roleAllowed caller.role = true)
    (hall : ∀ it ∈ od.items, (env.catalog.products it.product_id).isSome = true)
    (hmiss : ∃ it ∈ od.items, it.price ≤ 0) :
    (∃ pid, (create_order env caller od db ext).result
        = .error (.missingCooperationPrice pid)) ∧
    (create_order env caller od db ext).db = db ∧
    (create_order env caller od db ext).ext = ext ∧
    (od.payment_method = some PaymentMethod.online →
      (∀ pid, env.colleagueApi pid = none) →
      (∃ pid, (create_pending_order_for_payment env caller od db ext).result
          = .error (.missingCooperationPrice pid)) ∧
      (create_pending_order_for_payment env caller od db ext).db = db ∧
      (create_pending_order_for_payment env caller od db ext).ext = ext) := by
  obtain ⟨pid, hp⟩ :=
    priceItems_missing env.catalog db.discounts caller.id od.items hall hmiss
  have h1 : create_order env caller od db ext
      = ⟨.error (.missingCooperationPrice pid), db, ext⟩ := by
    simp [create_order, hrole, hp]
  refine ⟨⟨pid, by rw [h1]⟩, by rw [h1], by rw [h1], ?_⟩
  intro hpm hapi
  obtain ⟨pid2, hp2⟩ := pricePendingItems_missing env.catalog env.colleagueApi
    db.discounts caller.id od.items hall hmiss hapi
  have h2 : create_pending_order_for_payment env caller od db ext
      = ⟨.error (.missingCooperationPrice pid2), db, ext⟩ := by
    simp [create_pending_order_for_payment, hrole, hpm, hp2]
  exact ⟨⟨pid2, by rw [h2]⟩, by rw [h2], by rw [h2]⟩

/-- Witness for the amended C3 theorem: an online-payment cart with one
zero-priced item, an API that knows no colleague price, fails in both
flows with no state change. -/
theorem missing_cooperation_price_fatal_witness :
    (∃ pid, (create_order c3wEnv c1Caller c3pOd c3pDb ⟨[], []⟩).result
        = .error (.missingCooperationPrice pid)) ∧
    (create_order c3wEnv c1Caller c3pOd c3pDb ⟨[], []⟩).db = c3pDb ∧
    (create_order c3wEnv c1Caller c3pOd c3pDb ⟨[], []⟩).ext = ⟨[], []⟩ ∧
    (c3pOd.payment_method = some PaymentMethod.online →
      (∀ pid, c3wEnv.colleagueApi pid = none) →
      (∃ pid, (create_pending_order_for_payment c3wEnv c1Caller c3pOd c3pDb ⟨[], []⟩).result
          = .error (.missingCooperationPrice pid)) ∧
      (create_pending_order_for_payment c3wEnv c1Caller c3pOd c3pDb ⟨[], []⟩).db = c3pDb ∧
      (create_pending_order_for_payment c3wEnv c1Caller c3pOd c3pDb ⟨[], []⟩).ext
        = ⟨[], []⟩) :=
  missing_cooperation_price_fatal c3wEnv c1Caller c3pOd c3pDb ⟨[], []⟩ rfl
    (by
      intro it hit
      have h : it = c3pItem := by simpa [c3pOd] using hit
      subst h
      rfl)
    ⟨c3pItem, by simp [c3pOd], by norm_num [c3pItem]⟩

/-! ## Claim C4 -/

/-- Claim C4, counterexample.  A credit order whose seller balance (10)
is below the wholesale total (100) is rejected with the
insufficient-credit error and no local rows are committed — but the
WooCommerce mirror order has already been created (the credit check runs
after the external call) and is not rolled back, so the rejection is not
free of partial effects. -/
theorem insufficient_credit_still_creates_external_order :
    c4Out.result = .error .insufficientCredit ∧
    c4Out.db = c4Db ∧
    c4Out.ext.created.length = 1 := by
  refine ⟨?_, ?_, ?_⟩ <;>
    norm_num [c4Out, c4Env, c4Catalog, c4Od, c4Db, c4Caller, create_order,
      createOrderAfterPricing, createOrderAfterWoo, commitOrder, priceItems, priceItem,
      applyDiscount, find_applicable_discount, get_user_discount_for_category,
      findActiveDiscount, resolveRetail, resolveCustomer, roleAllowed, wooLineOfPriced,
      freshCredit, paymentMethodValue, pyRound, pyMax, List.find?, List.findSome?]

/-- Claim C4 as amended: for a credit-payment `create_order` call (pricing
and external mirror successful, local commit healthy), if the freshly
read balance is absent or below the wholesale total the call fails with
the insufficient-credit error and leaves the local database untouched —
though the external order just created remains; otherwise exactly the
wholesale total is deducted from the balance in the same commit that
persists the order. -/
theorem credit_orders_check_and_deduct_fresh_balance (env : Env) (caller : UserRow)
    (od : OrderCreateData) (db : LocalDB) (ext : ExtState)
    (priced : List PricedItem) (wooId : Nat)
    (hrole : roleAllowed caller.role = true)
    (hprice : priceItems env.catalog db.discounts caller.id od.items = .ok priced)
    (hwoo : env.wooCreateResult = some wooId)
    (hpm : od.payment_method = some PaymentMethod.credit)
    (hcommit : env.commitOk = true) :
    ((freshCredit db caller.id = none ∨
        (∃ c, freshCredit db caller.id = some c ∧
          c < (priced.map PricedItem.wholesaleTotal).sum)) →
      (create_order env caller od db ext).result = .error .insufficientCredit ∧
      (create_order env caller od db ext).db = db ∧
      (create_order env caller od db ext).ext.created.length = ext.created.length + 1) ∧
    (∀ c, freshCredit db caller.id = some c →
      (priced.map PricedItem.wholesaleTotal).sum ≤ c →
      (create_order env caller od db ext).result.toOption.isSome = true ∧
      freshCredit (create_order env caller od db ext).db caller.id
        = some (c - (priced.map PricedItem.wholesaleTotal).sum) ∧
      (create_order env caller od db ext).db.orders.map OrderRow.wholesale_amount
        = db.orders.map OrderRow.wholesale_amount
            ++ [(priced.map PricedItem.wholesaleTotal).sum] ∧
      (create_order env caller od db ext).db.orders.length = db.orders.length + 1) := by
  constructor
  · rintro (hnone | ⟨c, hc, hlt⟩)
    · refine ⟨?_, ?_, ?_⟩ <;>
        simp [create_order, hrole, hprice, createOrderAfterPricing, hwoo,
          createOrderAfterWoo, hpm, hnone]
    · refine ⟨?_, ?_, ?_⟩ <;>
        simp [create_order, hrole, hprice, createOrderAfterPricing, hwoo,
          createOrderAfterWoo, hpm, hc, hlt]
  · intro c hc hge
    have hnlt : ¬ c < (priced.map PricedItem.wholesaleTotal).sum := not_lt.mpr hge
    obtain ⟨u, hfu, hcu⟩ : ∃ u, db.users.find? (fun x => x.id == caller.id) = some u ∧
        u.credit = some c := by
      have h := hc
      simp only [freshCredit] at h
      exact Option.bind_eq_some.mp h
    refine ⟨?_, ?_, ?_, ?_⟩ <;>
      simp [create_order, hrole, hprice, createOrderAfterPricing, hwoo,
        createOrderAfterWoo, hpm, hc, hnlt, commitOrder, hcommit, Except.toOption,
        freshCredit, find_deductCredit, hfu, hcu]

/-- Witness for the amended C4 theorem: seller with balance 150 and a
100-unit cart ends with balance 150 − 100 and a persisted order. -/
theorem credit_orders_check_and_deduct_fresh_balance_witness :
    (create_order c4Env c4wCaller c4Od c4wDb ⟨[], []⟩).result.toOption.isSome = true ∧
    freshCredit (create_order c4Env c4wCaller c4Od c4wDb ⟨[], []⟩).db c4wCaller.id
      = some (150 - (c4wPriced.map PricedItem.wholesaleTotal).sum) ∧
    (create_order c4Env c4wCaller c4Od c4wDb ⟨[], []⟩).db.orders.map
        OrderRow.wholesale_amount
      = c4wDb.orders.map OrderRow.wholesale_amount
          ++ [(c4wPriced.map PricedItem.wholesaleTotal).sum] ∧
    (create_order c4Env c4wCaller c4Od c4wDb ⟨[], []⟩).db.orders.length
      = c4wDb.orders.length + 1 :=
  (credit_orders_check_and_deduct_fresh_balance c4Env c4wCaller c4Od c4wDb ⟨[], []⟩
      c4wPriced 7 rfl rfl rfl rfl rfl).2 150 rfl
    (by
      norm_num [c4wPriced, priceItems, priceItem, c4Env, c4Catalog, c4Od, c4wDb,
        c4wCaller, applyDiscount, find_applicable_discount,
        get_user_discount_for_category, findActiveDiscount, resolveRetail, pyRound,
        pyMax, Except.toOption, List.findSome?])

/-! ## Claim C5 -/

/-- Claim C8: payment verification is idempotent with respect to local
order creation — when the derived order_number already exists as a local
order, `verify_payment_and_register_order` returns that order and
changes neither the local database nor the external state. -/
theorem verify_payment_idempotent (env : Env) (caller : UserRow) (vr : VerifyReq)
    (db : LocalDB) (ext : ExtState) (w : WooOrderInfo)
    (cust : CustomerRow × Bool) (existing : OrderRow)
    (hrole : roleAllowed caller.role = true)
    (hwoo : env.extOrder vr.woo_order_id = some w)
    (hpaid : isPaid w = true)
    (hcust : resolveVerifyCustomer db vr = .ok cust)
    (hfound : db.orders.find?
        (fun o => o.order_number == ("ORD-" ++ env.today ++ "-" ++ toString vr.woo_order_id))
        = some existing) :
    (verify_payment_and_register_order env caller vr db ext).result = .ok existing ∧
    (verify_payment_and_register_order env caller vr db ext).db = db ∧
    (verify_payment_and_register_order env caller vr db ext).ext = ext := by
  have h : verify_payment_and_register_order env caller vr db ext
      = ⟨.ok existing, db, ext⟩ := by
    simp [verify_payment_and_register_order, hrole, hwoo, hpaid, hcust, hfound]
  exact ⟨by rw [h], by rw [h], by rw [h]⟩

/-- Witness for C8: re-verifying external order 9, whose derived
order_number is already present locally, returns the stored order and
creates nothing. -/
theorem verify_payment_idempotent_witness :
    (verify_payment_and_register_order c8Env c1Caller c8Req c8Db ⟨[], []⟩).result
      = .ok c8Order ∧
    (verify_payment_and_register_order c8Env c1Caller c8Req c8Db ⟨[], []⟩).db = c8Db ∧
    (verify_payment_and_register_order c8Env c1Caller c8Req c8Db ⟨[], []⟩).ext
      = ⟨[], []⟩ :=
  verify_payment_idempotent c8Env c1Caller c8Req c8Db ⟨[], []⟩ c2vWoo
    (c8Customer, false) c8Order rfl rfl (by decide) rfl rfl

end TazeinDecor
